import Mathlib

/-!
Verification of the wscoro suspendable-computation runtime against its
specification. The C++ sources are shallowly embedded: each mixin of the
Promise (the data slot in `value.h`, the continuation link in `suspend.h`,
the exception policies in `exception.h`) and each awaiter operation of
`task.h` becomes an explicit Lean function on an explicit state record.
Machine-level notions are modelled as follows: a `std::coroutine_handle<>`
is a nullable reference, modelled as `Option Nat` where the `Nat` is an
abstract frame identity; an `std::exception_ptr` is `Option Nat`; a failed
`assert` (a contract violation) makes the operation return `none`; calls of
the destructor of a stored value are recorded in a `destroyed` log so that
"frees the previous value" is observable.

The repository contains the current headers under `include/wscoro` and
earlier revisions of the same components among the unnamed sources; where a
claim is about a behavior of an earlier revision (the move/copy result
dispatch of `await_resume`, the generator `return_void` that discards a
pending continuation), that revision is embedded separately and the
definition's doc comment names its file.
-/

set_option autoImplicit false

namespace Wscoro

/-! ### DataSlot: `detail::PromiseData<T>` from `include/wscoro/value.h`

The slot is a union cell guarded by an `_is_empty` atomic flag. We model it
as an `Option T` together with a log of the values destroyed by
`free_data`, newest first, so that the destruction of a previous value is
an observable effect. -/

/-- State of `detail::PromiseData<T>` (value.h): `val` is the stored value
when the `_is_empty` flag is clear, and `destroyed` records every value
whose destructor `free_data` has run, newest first. -/
structure PromiseData (T : Type) where
  val : Option T
  destroyed : List T
deriving DecidableEq

/-- `PromiseData::has_value` (value.h, line 46): acquire-ordered read of the
full flag. -/
def PromiseData.has_value {T : Type} (s : PromiseData T) : Bool :=
  s.val.isSome

/-- `PromiseData::free_data` (value.h, line 25): if the flag said full,
mark empty and run the stored value's destructor. -/
def PromiseData.free_data {T : Type} (s : PromiseData T) : PromiseData T :=
  match s.val with
  | some w => { val := none, destroyed := w :: s.destroyed }
  | none => s

/-- `PromiseData::init_data` (value.h, line 57): free any prior content,
placement-construct the new value, clear the empty flag. -/
def PromiseData.init_data {T : Type} (s : PromiseData T) (v : T) :
    PromiseData T :=
  { val := some v, destroyed := s.free_data.destroyed }

/-- The lvalue overloads `data() const &` / `data() &` (value.h, lines
66-75): `assert(has_value())`, then hand out the value without consuming
it. A `none` result is the failed assertion (contract violation). -/
def PromiseData.dataRead {T : Type} (s : PromiseData T) : Option T :=
  s.val

/-- The rvalue overload `data() &&` (value.h, lines 78-83): test-and-set
the empty flag, `assert` it was previously full, and move the value out.
A `none` result is the failed assertion (contract violation); on success
the slot is left empty (no destructor runs on the moved-from storage). -/
def PromiseData.dataTake {T : Type} (s : PromiseData T) :
    Option (T × PromiseData T) :=
  match s.val with
  | some v => some (v, { val := none, destroyed := s.destroyed })
  | none => none

/-! ### ContinuationLink: `detail::Continuation` / `detail::NoContinuation`
from `include/wscoro/suspend.h` -/

/-- A nullable `std::coroutine_handle<>`; the `Nat` is an abstract identity
of the referenced coroutine frame. -/
abbrev CoroHandle := Option Nat

/-- State of `detail::Continuation` (suspend.h, line 37): the single
`_continuation` slot, `none` when null. -/
structure Continuation where
  continuation : CoroHandle
deriving DecidableEq

/-- `Continuation::set_continuation` (suspend.h, lines 42-46):
`assert(!_continuation)`, store the handle, return `true`. The outer
`none` is the failed assertion when a continuation is already pending. -/
def Continuation.set_continuation (c : Continuation) (k : Nat) :
    Option (Bool × Continuation) :=
  match c.continuation with
  | some _ => none
  | none => some (true, ⟨some k⟩)

/-- The awaiter `detail::SuspendWithContinuation` (suspend.h, line 20):
carries the consumed continuation handle, possibly null. -/
structure SuspendWithContinuation where
  continuation : CoroHandle
deriving DecidableEq

/-- `Continuation::suspend_with_continuation` (suspend.h, lines 48-52):
read the stored handle, null the slot, and wrap the handle in a
`SuspendWithContinuation`. -/
def Continuation.suspend_with_continuation (c : Continuation) :
    SuspendWithContinuation × Continuation :=
  (⟨c.continuation⟩, ⟨none⟩)

/-- A symmetric-transfer target: what an `await_suspend` returning a
`std::coroutine_handle<>` hands control to. -/
inductive ResumeTarget where
  | noopCoroutine
  | coro (k : Nat)
deriving DecidableEq

/-- `SuspendWithContinuation::await_suspend` (suspend.h, lines 25-32):
transfer to the stored continuation if there is one, otherwise to
`std::noop_coroutine()`. -/
def SuspendWithContinuation.awaitSuspend (s : SuspendWithContinuation) :
    ResumeTarget :=
  match s.continuation with
  | some k => ResumeTarget.coro k
  | none => ResumeTarget.noopCoroutine

/-- `NoContinuation::set_continuation` (suspend.h, lines 55-58): constant
`false`, nothing is stored. The mixin has no state, modelled as `Unit`. -/
def NoContinuation.set_continuation (_ : Unit) (_ : Nat) : Bool :=
  false

/-! ### Handle: `detail::CoroutineBase` from `include/wscoro/task.h` -/

/-- The coroutine frame a non-null handle refers to; for the handle-level
operations only its done bit is relevant. -/
structure CoroFrame where
  isDoneFlag : Bool
deriving DecidableEq

/-- State of `detail::CoroutineBase` (task.h, line 13): the `_handle`
member, `none` when null (for example after being moved from). -/
structure CoroutineBase where
  handle : Option CoroFrame
deriving DecidableEq

/-- `CoroutineBase::done` (task.h, lines 52-54):
`_handle && _handle.done()` — `false` for a null handle. -/
def CoroutineBase.done (c : CoroutineBase) : Bool :=
  match c.handle with
  | some f => f.isDoneFlag
  | none => false

/-- `CoroutineBase::operator bool` (task.h, lines 56-58):
`_handle != nullptr`. -/
def CoroutineBase.toBool (c : CoroutineBase) : Bool :=
  c.handle.isSome

/-- The move constructor `CoroutineBase(CoroutineBase &&o)` (task.h, lines
35-39): the target copies `o._handle`, then `o._handle = nullptr`. Result
is (constructed target, source after the move). -/
def CoroutineBase.moveConstruct (o : CoroutineBase) :
    CoroutineBase × CoroutineBase :=
  (⟨o.handle⟩, ⟨none⟩)

/-- The move assignment `operator=(CoroutineBase &&o)` (task.h, lines
41-45): `_handle = o._handle; o._handle = nullptr`. Result is
(assigned target, source after the move). -/
def CoroutineBase.moveAssign (_t o : CoroutineBase) :
    CoroutineBase × CoroutineBase :=
  (⟨o.handle⟩, ⟨none⟩)

/-! ### The suspend-handoff `await_suspend` from `include/wscoro/task.h`

`BasicTask::await_suspend` (lines 102-120) and
`BasicGenerator::await_suspend` (lines 149-167) have identical bodies;
both are embedded by `await_suspend` below. The promise's
`set_continuation` resolves to the `Continuation` or `NoContinuation`
mixin according to the flavor's suspend policy, modelled by
`ContinuationStorage`. -/

/-- Which continuation mixin the flavor's promise inherits:
`detail::Continuation` (with its single slot) or `detail::NoContinuation`. -/
inductive ContinuationStorage where
  | noStorage
  | storage (c : Continuation)
deriving DecidableEq

/-- Dispatch of `promise.set_continuation(continuation)` to the inherited
mixin. `none` is `Continuation`'s failed assertion. -/
def ContinuationStorage.set (s : ContinuationStorage) (k : Nat) :
    Option (Bool × ContinuationStorage) :=
  match s with
  | noStorage => some (NoContinuation.set_continuation () k, noStorage)
  | storage c =>
    (c.set_continuation k).map (fun p => (p.1, storage p.2))

/-- The observable outcome of one `await_suspend` call. -/
inductive AwaitSuspendResult where
  /-- returned `this->_handle`: control transfers to this computation -/
  | transferSelf
  /-- returned `std::noop_coroutine()`: nothing is resumed -/
  | noopHandle
  /-- executed `this->resume()` synchronously in place, then returned the
  awaiter's own continuation `k` -/
  | resumedSyncReturnContinuation (k : Nat)
deriving DecidableEq

/-- `BasicTask::await_suspend` / `BasicGenerator::await_suspend` (task.h):
if `set_continuation` fails to store (returns `false`), resume the
computation synchronously and return the continuation; otherwise return the
computation's own handle when the flavor did an initial suspend, and the
no-op handle when it did not. `didInitialSuspend` is the value of
`promise.did_initial_suspend()` (`suspend::BasicInitialSuspend`).
The outer `none` is the failed assertion inside `set_continuation`. -/
def await_suspend (st : ContinuationStorage) (didInitialSuspend : Bool)
    (k : Nat) : Option (AwaitSuspendResult × ContinuationStorage) :=
  match st.set k with
  | none => none
  | some (false, st') =>
    some (AwaitSuspendResult.resumedSyncReturnContinuation k, st')
  | some (true, st') =>
    if didInitialSuspend then some (AwaitSuspendResult.transferSelf, st')
    else some (AwaitSuspendResult.noopHandle, st')

/-! ### Exception policies: `include/wscoro/exception.h`

An `std::exception_ptr` is `Option Nat`, `none` for the null pointer. -/

/-- State of `exception::AsyncThrow` (exception.h, lines 15-27): the
`_exception` member holding at most one captured exception. -/
structure AsyncThrow where
  exception : Option Nat
deriving DecidableEq

/-- `AsyncThrow::unhandled_exception` (exception.h, lines 18-20): store
`std::current_exception()`. -/
def AsyncThrow.unhandled_exception (_ : AsyncThrow) (e : Nat) : AsyncThrow :=
  ⟨some e⟩

/-- `AsyncThrow::rethrow_exception` (exception.h, lines 22-26): if an
exception is stored, rethrow it — the result is the exception raised, if
any. The method is `const`: the stored `_exception` is left in place. -/
def AsyncThrow.rethrow_exception (s : AsyncThrow) : Option Nat :=
  s.exception

/-! ### `BasicTask::await_resume` from `include/wscoro/task.h` (lines
127-131): `promise.rethrow_exception(); return std::move(promise).data();`
for a flavor using the Capture (`AsyncThrow`) policy. -/

/-- The promise state `await_resume` reads: the `AsyncThrow` mixin and the
`PromiseData` slot. -/
structure TaskPromiseState (T : Type) where
  exc : AsyncThrow
  slot : PromiseData T
deriving DecidableEq

/-- What one `await_resume` call on a `BasicTask` does. -/
inductive ResumeOutcome (T : Type) where
  /-- `rethrow_exception` raised the stored exception `e` -/
  | thrown (e : Nat)
  /-- the slot's value was returned -/
  | value (v : T)
  /-- the asserted precondition of the rvalue `data()` failed -/
  | contractViolation
deriving DecidableEq

/-- `BasicTask::await_resume` under the Capture policy (task.h, lines
127-131): first `rethrow_exception()` — if an exception is stored it
propagates out of the call, and since `rethrow_exception` is `const` the
promise state is unchanged; otherwise `std::move(promise).data()` consumes
the slot. -/
def BasicTask.await_resume {T : Type} (p : TaskPromiseState T) :
    ResumeOutcome T × TaskPromiseState T :=
  match p.exc.rethrow_exception with
  | some e => (ResumeOutcome.thrown e, p)
  | none =>
    match p.slot.dataTake with
    | some (v, slot') => (ResumeOutcome.value v, { p with slot := slot' })
    | none => (ResumeOutcome.contractViolation, p)

/-! ### Generator protocol: `BasicGenerator` from `include/wscoro/task.h`
driven over an explicit body

A generator body is a state `b : B` with a step function
`step : B → Option (T × B)`: resuming the suspended body either reaches
`co_yield v` (writing `v` into the slot via `yield_value`, then
suspending) or reaches `co_return` (then `return_void` and the final
suspend, leaving the coroutine done). -/

/-- The state of a running generator computation: the suspended body `b`,
the promise's `PromiseData` slot, and the frame's done bit. -/
structure GenState (B T : Type) where
  b : B
  slot : PromiseData T
  isDone : Bool

/-- One `resume()` of a suspended generator body: `step` either yields the
next value — `yield_value` stores it with `init_data` and the body
suspends — or completes, setting the frame's done bit (sync generator:
`BasicYield::return_void` is a no-op and `BasicFinalSuspend<true>`
suspends). -/
def genResume {B T : Type} (step : B → Option (T × B)) (g : GenState B T) :
    GenState B T :=
  match step g.b with
  | some (v, b') => { g with b := b', slot := g.slot.init_data v }
  | none => { g with isDone := true }

/-- `BasicGenerator::await_ready` (task.h, lines 145-147):
`promise().has_value() || done()`. -/
def genAwaitReady {B T : Type} (g : GenState B T) : Bool :=
  g.slot.has_value || g.isDone

/-- `BasicTask::await_ready` (task.h, lines 98-100): `this->done()`. -/
def taskAwaitReady (c : CoroutineBase) : Bool :=
  c.done

/-- `BasicGenerator::await_resume` (task.h, lines 169-177):
`rethrow_exception()` (a no-op for the sync generator's `SyncThrow` when
no exception escaped), then `nullopt` if the computation is done,
otherwise `assert(has_value())` and consume the slot. The outer `none` is
the failed assertion (contract violation); the inner `Option T` is the
"present"/"exhausted" answer. -/
def genAwaitResume {B T : Type} (g : GenState B T) :
    Option (Option T × GenState B T) :=
  if g.isDone then some (none, g)
  else
    match g.slot.dataTake with
    | some (v, slot') => some (some v, { g with slot := slot' })
    | none => none

/-- One full pull (`co_await`) of a sync generator: the ready-check; if
not ready, the suspend-handoff — `set_continuation` of the sync flavor's
`NoContinuation` returns `false`, so the generator is resumed
synchronously in place and control returns to the awaiter — and then
`await_resume`. -/
def genAwait {B T : Type} (step : B → Option (T × B)) (g : GenState B T) :
    Option (Option T × GenState B T) :=
  genAwaitResume (if genAwaitReady g then g else genResume step g)

/-- Iterate `genAwait` `n` times, collecting the answers in order. -/
def genPulls {B T : Type} (step : B → Option (T × B)) (g : GenState B T) :
    Nat → Option (List (Option T) × GenState B T)
  | 0 => some ([], g)
  | n + 1 =>
    match genAwait step g with
    | none => none
    | some (r, g') =>
      (genPulls step g' n).map (fun p => (r :: p.1, p.2))

/-- A generator body that yields exactly the elements of a list, in order,
then returns. -/
def stepList {T : Type} : List T → Option (T × List T)
  | [] => none
  | v :: rest => some (v, rest)

/-- The `fibonacci` generator body of `test/task.cpp` (lines 73-82):
`a0 = 1; a1 = 1; loop { co_yield a0; co_yield a1; a0 += a1; a1 += a0; }`.
The body state is `(a0, a1, phase)` where `phase` is `false` when the next
statement is `co_yield a0` and `true` when it is `co_yield a1` followed by
the two additions. -/
def stepFib : Nat × Nat × Bool → Option (Nat × (Nat × Nat × Bool))
  | (a0, a1, false) => some (a0, (a0, a1, true))
  | (a0, a1, true) => some (a1, (a0 + a1, a1 + (a0 + a1), false))

/-- The fresh `fibonacci()` computation: body at its start, empty slot,
not done (it suspended initially: `BasicInitialSuspend<true>`). -/
def fibInitial : GenState (Nat × Nat × Bool) Nat :=
  { b := (1, 1, false), slot := { val := none, destroyed := [] },
    isDone := false }

/-! ### Flavor matrix: the aliases of `include/wscoro/wscoro.h` -/

/-- The final-suspend mixin a flavor selects. -/
inductive FinalSuspendPolicy where
  /-- `suspend::BasicFinalSuspend<b>` (inherits `NoContinuation`) -/
  | basic (suspend : Bool)
  /-- `suspend::FinalSuspendWithContinuation` (inherits `Continuation`) -/
  | withContinuation
deriving DecidableEq

/-- The exception mixin a flavor selects (`exception.h`). -/
inductive ExceptionPolicy where
  | ignoreExceptions
  | asyncThrow
  | syncThrow
deriving DecidableEq

/-- The policy arguments a flavor alias passes to `Promise` in
`wscoro.h`. -/
structure FlavorTraits where
  isGenerator : Bool
  exceptionPolicy : ExceptionPolicy
  /-- the `Suspend` argument of `suspend::BasicInitialSuspend` -/
  initialSuspend : Bool
  finalSuspendPolicy : FinalSuspendPolicy
deriving DecidableEq

/-- `wscoro::Immediate` (wscoro.h, lines 15-22). -/
def Immediate : FlavorTraits :=
  ⟨false, ExceptionPolicy.syncThrow, false, FinalSuspendPolicy.basic true⟩

/-- `wscoro::Lazy` (wscoro.h, lines 27-34). -/
def Lazy : FlavorTraits :=
  ⟨false, ExceptionPolicy.syncThrow, true, FinalSuspendPolicy.basic true⟩

/-- `wscoro::Task` (wscoro.h, lines 39-46). -/
def Task : FlavorTraits :=
  ⟨false, ExceptionPolicy.asyncThrow, true,
    FinalSuspendPolicy.withContinuation⟩

/-- `wscoro::ImmediateTask` (wscoro.h, lines 50-57), named `AutoTask` in
the earlier revisions of the library. -/
def ImmediateTask : FlavorTraits :=
  ⟨false, ExceptionPolicy.asyncThrow, false,
    FinalSuspendPolicy.withContinuation⟩

/-- `wscoro::Generator` (wscoro.h, lines 61-68). -/
def Generator : FlavorTraits :=
  ⟨true, ExceptionPolicy.syncThrow, true, FinalSuspendPolicy.basic true⟩

/-- `wscoro::AsyncGenerator` (wscoro.h, lines 72-79). -/
def AsyncGenerator : FlavorTraits :=
  ⟨true, ExceptionPolicy.asyncThrow, true,
    FinalSuspendPolicy.withContinuation⟩

/-- `wscoro::FireAndForget` (wscoro.h, lines 83-89). -/
def FireAndForget : FlavorTraits :=
  ⟨false, ExceptionPolicy.syncThrow, false, FinalSuspendPolicy.basic false⟩

/-- `BasicInitialSuspend<Suspend>::did_initial_suspend` (suspend.h, lines
81-83): the compile-time `Suspend` argument. -/
def did_initial_suspend (suspendArg : Bool) : Bool :=
  suspendArg

/-- Creation of a computation, per the C++ coroutine machine specialized
by `suspend::BasicInitialSuspend<Suspend>` (suspend.h, lines 77-88): the
ramp runs the body up to `initial_suspend()`; `suspend_always` stops there
with nothing of the body executed, `suspend_never` continues into the body
until its first suspension point (or completion). A body is a list of
segments separated by suspension points; the result is (the segments
executed by creation, the segments remaining). -/
def createCoro {S : Type} : Bool → List S → List S × List S
  | true, body => ([], body)
  | false, [] => ([], [])
  | false, s :: rest => ([s], rest)

/-! ### Earlier revision: copy-vs-move result retrieval

`BasicTask<T, Traits>::await_resume` of the unnamed task header
(`src/unnamed/part_001`, lines 233-264) dispatches on
`Traits::move_result`: `T{std::move(promise).data()}` (the consuming
rvalue `data()` of value.h) when moving, `T{promise.data()}` (the
non-consuming lvalue overload, copying out) when not. -/

/-- Result retrieval of `part_001`'s `await_resume` for a non-void,
non-generator flavor: `moveResult` is `Traits::move_result::value`. `none`
is the contract violation of reading an empty slot. -/
def await_resume_value {T : Type} (moveResult : Bool) (s : PromiseData T) :
    Option (T × PromiseData T) :=
  if moveResult then s.dataTake
  else
    match s.dataRead with
    | some v => some (v, s)
    | none => none

/-! ### Earlier revision: generator completion with a pending continuation

`detail::PromiseData<P, T, Async, true>::return_void` of the unnamed
promise header (`src/unnamed/part_003`, lines 217-226) and the final
suspend `detail::Suspend<true, P>::await_suspend` of the same file (lines
34-48). -/

/-- The continuation-relevant state of `part_003`'s async generator
promise: the `PromiseContinuation<true>::_continuation` slot, a count of
`log::warn` diagnostics emitted, and the handles destroyed by
`continuation.destroy()`. -/
structure OldGenPromise where
  continuation : CoroHandle
  warnings : Nat
  destroyedHandles : List Nat
deriving DecidableEq

/-- `PromiseData<P, T, Async, true>::return_void` (part_003, lines
217-226): when `Async` and a continuation is pending, null the slot,
destroy the continuation, and emit the warning diagnostic
("Generator finished and discarded its continuation."). -/
def OldGenPromise.return_void (async : Bool) (p : OldGenPromise) :
    OldGenPromise :=
  if async then
    match p.continuation with
    | some k =>
      { continuation := none, warnings := p.warnings + 1,
        destroyedHandles := p.destroyedHandles ++ [k] }
    | none => p
  else p

/-- `detail::Suspend<true, P>::await_suspend` (part_003, lines 34-48), the
final suspend of `part_003`'s async promises: transfer to the pending
continuation if one remains (clearing it), otherwise to
`std::noop_coroutine()`. -/
def OldGenPromise.finalSuspendTarget (p : OldGenPromise) :
    ResumeTarget × OldGenPromise :=
  match p.continuation with
  | some k => (ResumeTarget.coro k, { p with continuation := none })
  | none => (ResumeTarget.noopCoroutine, p)

/-- Completion of a `part_003` async generator body: `co_return` runs
`return_void`, then the final suspend picks the transfer target. -/
def OldGenPromise.complete (p : OldGenPromise) :
    ResumeTarget × OldGenPromise :=
  (p.return_void true).finalSuspendTarget

end Wscoro

namespace Wscoro

/-! ### Helper lemmas for the generator pulls -/

/-- Pulling a completed generator: the ready-check answers true (done), and
`await_resume` answers "exhausted" without touching anything. -/
theorem genAwait_of_done {B T : Type} (step : B → Option (T × B))
    (g : GenState B T) (h : g.isDone = true) :
    genAwait step g = some (none, g) := by
  have hready : genAwaitReady g = true := by
    simp [genAwaitReady, h]
  simp [genAwait, hready, genAwaitResume, h]

/-- A completed generator answers "exhausted" to every further pull. -/
theorem genPulls_of_done {B T : Type} (step : B → Option (T × B))
    (g : GenState B T) (k : Nat) (h : g.isDone = true) :
    genPulls step g k = some (List.replicate k none, g) := by
  induction k with
  | zero => simp [genPulls]
  | succ n ih =>
    simp [genPulls, genAwait_of_done step g h, ih, List.replicate_succ]

/-- A generator over the body `stepList l` answers "present" with the
elements of `l` in order to the first `l.length` pulls and "exhausted" to
every pull after that. -/
theorem genPulls_stepList {T : Type} (l : List T) :
    ∀ (d : List T) (k : Nat),
      (genPulls stepList ⟨l, ⟨none, d⟩, false⟩ (l.length + k)).map Prod.fst =
        some (l.map some ++ List.replicate k none) := by
  induction l with
  | nil =>
    intro d k
    cases k with
    | zero => simp [genPulls]
    | succ n =>
      have hstep :
          genAwait stepList (⟨[], ⟨none, d⟩, false⟩ : GenState (List T) T) =
            some (none, ⟨[], ⟨none, d⟩, true⟩) := by
        simp [genAwait, genAwaitReady, PromiseData.has_value, genResume,
          stepList, genAwaitResume]
      have hrest := genPulls_of_done stepList
        (⟨[], ⟨none, d⟩, true⟩ : GenState (List T) T) n rfl
      simp [genPulls, hstep, hrest, List.replicate_succ]
  | cons v rest ih =>
    intro d k
    have harith : (v :: rest).length + k = (rest.length + k) + 1 := by
      simp [List.length_cons]
      omega
    rw [harith]
    have hstep :
        genAwait stepList
            (⟨v :: rest, ⟨none, d⟩, false⟩ : GenState (List T) T) =
          some (some v, ⟨rest, ⟨none, d⟩, false⟩) := by
      simp [genAwait, genAwaitReady, PromiseData.has_value, genResume,
        stepList, genAwaitResume, PromiseData.init_data,
        PromiseData.free_data, PromiseData.dataTake]
    cases hrec :
        genPulls stepList (⟨rest, ⟨none, d⟩, false⟩ : GenState (List T) T)
          (rest.length + k) with
    | none =>
      have hmap := ih d k
      rw [hrec] at hmap
      simp at hmap
    | some p =>
      have hmap := ih d k
      rw [hrec] at hmap
      simp at hmap
      simp [genPulls, hstep, hrec, hmap]

/-! ### Theorems for the claims -/

/-- C3. For every value `v` of a non-void type, `init_data v` followed by
the rvalue `data()` returns `v` and leaves the slot empty; a second take or
a read on the now-empty slot, without an intervening write, fails the
slot's asserted precondition; and `init_data` into a slot already holding
`w` runs the destructor of `w` before storing the new value. -/
theorem dataSlot_exactly_once :
    ∀ (T : Type) (s : PromiseData T) (v : T),
      (∃ rest : PromiseData T,
        (s.init_data v).dataTake = some (v, rest) ∧
        rest.has_value = false ∧
        rest.dataTake = none ∧
        rest.dataRead = none) ∧
      ∀ (w : T) (d : List T),
        (PromiseData.mk (some w) d).init_data v =
          PromiseData.mk (some v) (w :: d) := by
  intro T s v
  refine ⟨⟨{ val := none, destroyed := s.free_data.destroyed }, ?_, rfl, rfl, rfl⟩, ?_⟩
  · simp [PromiseData.init_data, PromiseData.dataTake]
  · intro w d
    simp [PromiseData.init_data, PromiseData.free_data]

/-- C4. With continuation storage disabled (`NoContinuation`),
`set_continuation` returns `false` and stores nothing; with storage
(`Continuation`), `set_continuation` on an empty link stores the given
handle and returns `true`, a subsequent `suspend_with_continuation`
returns exactly that handle and clears the link, consuming an empty link
yields the null sentinel (which transfers to the no-op coroutine), and a
second `set_continuation` without an intervening consume fails the link's
asserted precondition. -/
theorem continuation_exactly_once :
    ∀ (k k' : Nat),
      NoContinuation.set_continuation () k = false ∧
      Continuation.set_continuation ⟨none⟩ k = some (true, ⟨some k⟩) ∧
      Continuation.suspend_with_continuation ⟨some k⟩ = (⟨some k⟩, ⟨none⟩) ∧
      (Continuation.suspend_with_continuation ⟨some k⟩).1.awaitSuspend =
        ResumeTarget.coro k ∧
      Continuation.suspend_with_continuation ⟨none⟩ = (⟨none⟩, ⟨none⟩) ∧
      (Continuation.suspend_with_continuation ⟨none⟩).1.awaitSuspend =
        ResumeTarget.noopCoroutine ∧
      Continuation.set_continuation ⟨some k⟩ k' = none := by
  intro k k'
  refine ⟨rfl, rfl, rfl, rfl, rfl, rfl, rfl⟩

/-- C5. `await_suspend`, given the awaiter's continuation `k`, behaves in
exactly one of three ways per the flavor's policy: with continuation
storage and an initial suspend it stores `k` and returns the computation's
own handle (control transfers to the computation); with storage but no
initial suspend it stores `k` and returns the no-op handle (nothing is
resumed); with no continuation storage (`set_continuation` returns
`false`) it resumes the computation synchronously in place and returns the
awaiter's own continuation. -/
theorem await_suspend_three_way :
    ∀ k : Nat,
      await_suspend (ContinuationStorage.storage ⟨none⟩) true k =
        some (AwaitSuspendResult.transferSelf,
          ContinuationStorage.storage ⟨some k⟩) ∧
      await_suspend (ContinuationStorage.storage ⟨none⟩) false k =
        some (AwaitSuspendResult.noopHandle,
          ContinuationStorage.storage ⟨some k⟩) ∧
      ∀ didIS : Bool,
        await_suspend ContinuationStorage.noStorage didIS k =
          some (AwaitSuspendResult.resumedSyncReturnContinuation k,
            ContinuationStorage.noStorage) := by
  intro k
  exact ⟨rfl, rfl, fun _ => rfl⟩

/-- C7. The ready-check of a non-generator computation answers true
exactly when the computation is complete (its frame exists and is done);
the ready-check of a generator flavor answers true exactly when the
computation is complete or an unread value sits in the slot. -/
theorem await_ready_characterization :
    (∀ c : CoroutineBase, taskAwaitReady c = true ↔
      ∃ f : CoroFrame, c.handle = some f ∧ f.isDoneFlag = true) ∧
    (∀ (B T : Type) (g : GenState B T), genAwaitReady g = true ↔
      (g.isDone = true ∨ ∃ v : T, g.slot.val = some v)) := by
  constructor
  · intro c
    cases hc : c.handle with
    | none => simp [taskAwaitReady, CoroutineBase.done, hc]
    | some f => simp [taskAwaitReady, CoroutineBase.done, hc]
  · intro B T g
    cases hs : g.slot.val with
    | none =>
      simp [genAwaitReady, PromiseData.has_value, hs]
    | some v =>
      simp [genAwaitReady, PromiseData.has_value, hs]

/-- C6. A generator yielding the `N` values of a list answers "present"
with the yielded values in produced order to exactly the first `N` pulls
and "exhausted" to every pull thereafter; and the Fibonacci generator body
of test/task.cpp pulled 7 times answers exactly 1, 1, 2, 3, 5, 8, 13 in
that order. -/
theorem generator_exhaustion_and_fibonacci :
    (∀ (T : Type) (l d : List T) (k : Nat),
      (genPulls stepList ⟨l, ⟨none, d⟩, false⟩ (l.length + k)).map Prod.fst =
        some (l.map some ++ List.replicate k none)) ∧
    (genPulls stepFib fibInitial 7).map Prod.fst =
      some [some 1, some 1, some 2, some 3, some 5, some 8, some 13] := by
  constructor
  · intro T l d k
    exact genPulls_stepList l d k
  · decide

/-- C8. With the initial suspend disabled (`did_initial_suspend` false, as
for Immediate, ImmediateTask — named AutoTask in earlier revisions — and
FireAndForget), creation runs the body to its first suspension point (or
to completion when the body has none) before any explicit resume; with it
enabled (Lazy, Task, Generator, AsyncGenerator), creation executes no part
of the body. -/
theorem initial_suspend_behavior :
    (∀ (S : Type) (body : List S),
      createCoro (did_initial_suspend true) body = ([], body)) ∧
    (∀ (S : Type) (s : S) (rest : List S),
      createCoro (did_initial_suspend false) (s :: rest) = ([s], rest)) ∧
    (∀ S : Type, createCoro (did_initial_suspend false) ([] : List S) =
      ([], [])) ∧
    Immediate.initialSuspend = false ∧
    ImmediateTask.initialSuspend = false ∧
    FireAndForget.initialSuspend = false ∧
    Lazy.initialSuspend = true ∧
    Task.initialSuspend = true ∧
    Generator.initialSuspend = true ∧
    AsyncGenerator.initialSuspend = true := by
  exact ⟨fun _ _ => rfl, fun _ _ _ => rfl, fun _ => rfl,
    rfl, rfl, rfl, rfl, rfl, rfl, rfl⟩

/-- C9. Under the copy result mode, retrieving the completed result twice
succeeds and yields the same value both times, the slot staying full;
under the move result mode, the first retrieval empties the slot and a
second retrieval without an intervening write fails the emptied slot's
asserted precondition. -/
theorem copy_vs_move_result :
    ∀ (T : Type) (v : T) (d : List T),
      await_resume_value false ⟨some v, d⟩ = some (v, ⟨some v, d⟩) ∧
      (await_resume_value false (⟨some v, d⟩ : PromiseData T)).bind
        (fun p => await_resume_value false p.2) = some (v, ⟨some v, d⟩) ∧
      await_resume_value true ⟨some v, d⟩ = some (v, ⟨none, d⟩) ∧
      (await_resume_value true (⟨some v, d⟩ : PromiseData T)).bind
        (fun p => await_resume_value true p.2) = none := by
  intro T v d
  exact ⟨rfl, rfl, rfl, rfl⟩

/-- C10. A `CoroutineBase` whose handle is null reports `done()` false and
converts to `false`; move construction and move assignment leave the
source empty (null handle, hence not done and boolean false) while the
target takes over the original handle. -/
theorem handle_empty_and_move :
    CoroutineBase.done ⟨none⟩ = false ∧
    CoroutineBase.toBool ⟨none⟩ = false ∧
    (∀ o : CoroutineBase,
      o.moveConstruct.1.handle = o.handle ∧
      o.moveConstruct.2 = ⟨none⟩ ∧
      o.moveConstruct.2.done = false ∧
      o.moveConstruct.2.toBool = false) ∧
    (∀ t o : CoroutineBase,
      (t.moveAssign o).1.handle = o.handle ∧
      (t.moveAssign o).2 = ⟨none⟩ ∧
      (t.moveAssign o).2.done = false ∧
      (t.moveAssign o).2.toBool = false) := by
  exact ⟨rfl, rfl, fun o => ⟨rfl, rfl, rfl, rfl⟩,
    fun t o => ⟨rfl, rfl, rfl, rfl⟩⟩

/-- C2. When a generator computation reaches `co_return` while a
continuation is pending (the `part_003` promise layer, where this behavior
is implemented): `return_void` clears the pending continuation, destroys
it and emits one warning diagnostic, and the final suspend then transfers
to the no-op coroutine — the pending continuation is never transferred
to. -/
theorem generator_discards_pending_continuation :
    ∀ (k w : Nat) (d : List Nat),
      OldGenPromise.return_void true ⟨some k, w, d⟩ =
        ⟨none, w + 1, d ++ [k]⟩ ∧
      OldGenPromise.complete ⟨some k, w, d⟩ =
        (ResumeTarget.noopCoroutine, ⟨none, w + 1, d ++ [k]⟩) := by
  intro k w d
  exact ⟨rfl, rfl⟩

/-- C1 counterexample. Under the Capture policy (`exception::AsyncThrow`),
with exception 0 stored and value 1 in the slot: the first `await_resume`
re-raises 0 and leaves the promise unchanged — the exception is not
cleared — and therefore the second `await_resume` re-raises the same
exception 0 again, contradicting the claim that the first call clears it
and the second does not re-raise. -/
theorem capture_exception_second_resume_reraises :
    BasicTask.await_resume (⟨⟨some 0⟩, ⟨some 1, []⟩⟩ : TaskPromiseState Nat) =
      (ResumeOutcome.thrown 0, ⟨⟨some 0⟩, ⟨some 1, []⟩⟩) ∧
    BasicTask.await_resume
        (BasicTask.await_resume
          (⟨⟨some 0⟩, ⟨some 1, []⟩⟩ : TaskPromiseState Nat)).2 =
      (ResumeOutcome.thrown 0, ⟨⟨some 0⟩, ⟨some 1, []⟩⟩) := by
  exact ⟨rfl, rfl⟩

/-- C1 amended. Under the Capture policy, an error stored by
`unhandled_exception` is re-raised by the first subsequent
`resume-with-result` — but `rethrow_exception` is `const` and does not
clear the stored exception, so the promise state is unchanged and every
subsequent `resume-with-result` re-raises the same error again. -/
theorem capture_exception_reraised_every_resume :
    ∀ (T : Type) (p : TaskPromiseState T) (e : Nat),
      p.exc.exception = some e →
      BasicTask.await_resume p = (ResumeOutcome.thrown e, p) := by
  intro T p e h
  simp [BasicTask.await_resume, AsyncThrow.rethrow_exception, h]

/-- Witness for the amended C1 at a concrete promise state. -/
theorem capture_exception_reraised_every_resume_witness :
    (⟨⟨some 2⟩, ⟨some 5, []⟩⟩ : TaskPromiseState Nat).exc.exception =
      some 2 ∧
    BasicTask.await_resume
        (⟨⟨some 2⟩, ⟨some 5, []⟩⟩ : TaskPromiseState Nat) =
      (ResumeOutcome.thrown 2, ⟨⟨some 2⟩, ⟨some 5, []⟩⟩) :=
  ⟨rfl, capture_exception_reraised_every_resume Nat
    ⟨⟨some 2⟩, ⟨some 5, []⟩⟩ 2 rfl⟩

end Wscoro
